import Mathlib

/-!
# Verification of the NEXUS AI gateway and intent router

Shallow embedding of `src/services/ai_provider.py` (class `AIProviderManager`)
and `src/services/ai_router.py` (class `IntelligentRouter`).

Modelling conventions:
* Python `float` values (keyword weights, scores, confidences, costs) are
  modelled as exact rationals `ℚ`; Python `int` as `ℕ`/`ℤ`.
* Python strings are modelled by Lean `String`; `str.lower()` is ASCII
  lowering (all literals involved are ASCII).  `kw in msg` is substring
  containment, implemented below on the character lists.
* The regex question-pattern tables contain only alternations of literal
  words (no quantifiers or classes), so an unanchored case-insensitive
  `re.search` of such a pattern holds iff one of the finitely many literal
  expansions of the pattern occurs as a substring of the message; the
  tables below list exactly those (lower-cased) expansions.
* Network calls (`_call_provider`) are the program's only source of
  nondeterminism; they are modelled by an oracle `outcome : String → CallResult`
  giving each provider's response.  Wall-clock latency, timestamps, stream
  and user-id pass-through fields are omitted: no claim mentions them.
* The best-effort database write in `_log_request` (exceptions swallowed)
  is modelled as an append to a ledger list.
-/

/-- `charsStart needle hay`: `needle` is a prefix of `hay` (character lists). -/
def charsStart : List Char → List Char → Bool
  | [], _ => true
  | _ :: _, [] => false
  | a :: as, b :: bs => a == b && charsStart as bs

/-- `charsContain needle hay`: `needle` occurs as a contiguous sublist of `hay`. -/
def charsContain (needle : List Char) : List Char → Bool
  | [] => charsStart needle []
  | b :: bs => charsStart needle (b :: bs) || charsContain needle bs

/-- Python `needle in hay` on strings: substring containment. -/
def strContains (hay needle : String) : Bool :=
  charsContain needle.data hay.data

/-- Python `s.lower()` (ASCII). -/
def strLower (s : String) : String :=
  ⟨s.data.map Char.toLower⟩

/-- Helper for Python `s.title()`: capitalise a letter that follows a
non-letter, lower the rest.  The flag records whether the previous
character was a letter. -/
def titleChars : Bool → List Char → List Char
  | _, [] => []
  | prevAlpha, c :: cs =>
    if c.isAlpha then
      (if prevAlpha then c.toLower else c.toUpper) :: titleChars true cs
    else
      c :: titleChars false cs

/-- Python `s.title()` (ASCII). -/
def strTitle (s : String) : String :=
  ⟨titleChars false s.data⟩

namespace IntelligentRouter

/-- `TRAINING_KEYWORDS` from `src/services/ai_router.py` lines 19-35:
training-related keywords routed to Agnes, with their float weights. -/
def TRAINING_KEYWORDS : List (String × ℚ) :=
  [("practice", 1.0), ("roleplay", 1.0), ("training", 1.0), ("scenario", 0.9),
   ("teach me", 0.9), ("learn", 0.8), ("how to handle", 0.9),
   ("what should i say", 0.9), ("how do i respond", 0.9), ("objection", 0.7),
   ("script", 0.7), ("agnes", 1.0), ("train", 0.8), ("rehearse", 0.9),
   ("prepare for", 0.8)]

/-- `SUSAN_KEYWORDS` from `src/services/ai_router.py` lines 38-68:
insurance/technical keywords routed to Susan.  Note that several keys
(`GAF`, `Owens Corning`, `CertainTeed`, `IBC`, `IRC`, `NFPA`, `iTel`)
contain upper-case letters, exactly as in the source. -/
def SUSAN_KEYWORDS : List (String × ℚ) :=
  [("building code", 1.0), ("manufacturer", 0.9), ("insurance", 0.9),
   ("claim", 0.9), ("adjuster", 0.9), ("policy", 0.8), ("coverage", 0.8),
   ("GAF", 1.0), ("Owens Corning", 1.0), ("CertainTeed", 1.0), ("IBC", 1.0),
   ("IRC", 1.0), ("NFPA", 1.0), ("wind", 0.6), ("hail", 0.6), ("storm", 0.6),
   ("damage", 0.7), ("susan", 1.0), ("flashing", 0.8), ("underlayment", 0.8),
   ("shingles", 0.7), ("roof", 0.6), ("photo report", 0.9), ("iTel", 0.9),
   ("template", 0.7), ("documentation", 0.7), ("estimate", 0.7),
   ("complaint", 0.8), ("arbitration", 0.8)]

/-- The literal expansions (lower-cased, for the `re.IGNORECASE` search on an
already lower-cased message) of `TECHNICAL_QUESTION_PATTERNS`
(`src/services/ai_router.py` lines 71-77).  Each source regex is a plain
alternation of literals, so `re.search` succeeds iff one expansion is a
substring. -/
def TECHNICAL_PATTERN_CASES : List String :=
  ["what is the code", "what is the requirement", "what is the guideline",
   "what are the code", "what are the requirement", "what are the guideline",
   "how do insurance", "how do claim", "how do policy",
   "how does insurance", "how does claim", "how does policy",
   "can i", "can we", "can they", "should i", "should we", "should they",
   "must i", "must we", "must they",
   "what does gaf", "what does owens corning", "what does ibc", "what does irc",
   "what is gaf", "what is owens corning", "what is ibc", "what is irc",
   "wind speed", "hail size", "storm"]

/-- The literal expansions of `TRAINING_QUESTION_PATTERNS`
(`src/services/ai_router.py` lines 80-85). -/
def TRAINING_PATTERN_CASES : List String :=
  ["how do i handle", "how do i respond", "how do i deal with",
   "how should i handle", "how should i respond", "how should i deal with",
   "what should i say", "what would i say", "what could i say",
   "practice", "roleplay", "train", "rehearse",
   "help me how to", "help me to", "teach me how to", "teach me to",
   "show me how to", "show me to"]

/-- `IntelligentRouter._calculate_keyword_score`: sum the weights of the
table keys occurring verbatim as substrings of `message`. -/
def calculate_keyword_score (message : String) (keywords : List (String × ℚ)) : ℚ :=
  keywords.foldl (fun score kw => if strContains message kw.1 then score + kw.2 else score) 0

/-- `IntelligentRouter._check_patterns`, with each regex replaced by its
list of literal expansions (see `TECHNICAL_PATTERN_CASES`). -/
def check_patterns (message : String) (cases : List String) : Bool :=
  cases.any (fun c => strContains message c)

/-- `RoutingContext`: the context dictionary keys `route` reads, with
Python's missing-key/falsy defaults. -/
structure RoutingContext where
  active_training_scenario : Bool := false
  last_ai : Option String := none
  agnes_message_count : ℕ := 0
  susan_message_count : ℕ := 0
  recent_scenario_completion : Bool := false
  recent_claim_discussion : Bool := false
deriving DecidableEq

/-- `route(message)` with no context argument: Python `context or {}`. -/
def emptyContext : RoutingContext := {}

/-- Structured rendering of the `reason` strings `route` produces (the
source formats these as f-strings; the constructors carry the same data). -/
inductive Reason where
  | explicitMention (ai : String)
  | activeScenario
  | continuity (ai : String) (streak : ℕ)
  | trainingIntent (score : ℚ)
  | technicalIntent (score : ℚ)
  | defaultRoute
deriving DecidableEq

/-- The training score of step 4-6 of `route`: keyword score, +0.5 on a
training-pattern match, +0.3 on `recent_scenario_completion`.  `message`
is the already lower-cased message. -/
def training_score (message : String) (context : RoutingContext) : ℚ :=
  let s0 := calculate_keyword_score message TRAINING_KEYWORDS
  let s1 := if check_patterns message TRAINING_PATTERN_CASES then s0 + 0.5 else s0
  if context.recent_scenario_completion then s1 + 0.3 else s1

/-- The technical score of step 4-6 of `route`: keyword score, +0.5 on a
technical-pattern match, +0.3 on `recent_claim_discussion`. -/
def technical_score (message : String) (context : RoutingContext) : ℚ :=
  let s0 := calculate_keyword_score message SUSAN_KEYWORDS
  let s1 := if check_patterns message TECHNICAL_PATTERN_CASES then s0 + 0.5 else s0
  if context.recent_claim_discussion then s1 + 0.3 else s1

/-- `IntelligentRouter.route` (`src/services/ai_router.py` lines 87-166).
Returns `(ai_name, reason, confidence)`. -/
def route (message : String) (context : RoutingContext) : String × Reason × ℚ :=
  let ml := strLower message
  if strContains ml "susan" && !strContains ml "agnes" then
    ("susan", Reason.explicitMention "susan", 1)
  else if strContains ml "agnes" && !strContains ml "susan" then
    ("agnes", Reason.explicitMention "agnes", 1)
  else if context.active_training_scenario then
    ("agnes", Reason.activeScenario, 1)
  else if context.last_ai == some "agnes" && 3 ≤ context.agnes_message_count then
    ("agnes", Reason.continuity "agnes" context.agnes_message_count, 0.9)
  else if context.last_ai == some "susan" && 3 ≤ context.susan_message_count then
    ("susan", Reason.continuity "susan" context.susan_message_count, 0.9)
  else
    let ts := training_score ml context
    let xs := technical_score ml context
    if xs < ts then
      ("agnes", Reason.trainingIntent ts, min (ts / (ts + xs + 0.1)) 1)
    else if ts < xs then
      ("susan", Reason.technicalIntent xs, min (xs / (ts + xs + 0.1)) 1)
    else
      ("susan", Reason.defaultRoute, 0.5)

/-- `IntelligentRouter._generate_handoff_message`. -/
def generate_handoff_message (from_ai to_ai : String) : String :=
  if from_ai = "susan" ∧ to_ai = "agnes" then
    "It sounds like you\x27d like to practice this! Let me connect you with Agnes for some roleplay training. She\x27s great at this!"
  else if from_ai = "agnes" ∧ to_ai = "susan" then
    "Great practice! For the actual technical details and insurance specifics, let me hand you over to Susan. She\x27s the expert on real-world claims!"
  else
    "Let me connect you with " ++ strTitle to_ai ++ " for this."

/-- The suggestion dictionary `suggest_handoff` returns. -/
structure HandoffSuggestion where
  suggested_ai : String
  reason : Reason
  confidence : ℚ
  message : String
deriving DecidableEq

/-- `IntelligentRouter.suggest_handoff` (`src/services/ai_router.py`
lines 183-216).  Note line 205 calls `self.route(message)` with no
context, i.e. `route message emptyContext`. -/
def suggest_handoff (current_ai : String) (message : String)
    (conversation_length : ℤ) : Option HandoffSuggestion :=
  if conversation_length < 3 then
    none
  else
    let r := route message emptyContext
    if r.1 ≠ current_ai ∧ 0.8 ≤ r.2.2 then
      some ⟨r.1, r.2.1, r.2.2, generate_handoff_message current_ai r.1⟩
    else
      none

end IntelligentRouter

namespace AIProviderManager

/-- Token usage as reported by a provider (`_call_provider` return value,
`src/services/ai_provider.py` lines 241-248).  The gateway never recomputes
these numbers. -/
structure Usage where
  prompt_tokens : ℕ
  completion_tokens : ℕ
  total_tokens : ℕ
deriving DecidableEq

/-- One entry of `self.providers` (`__init__`, lines 27-67): name, persona →
model-name map, cost per 1000 tokens, priority, max-tokens ceiling,
streaming flag.  The API client object is elided (calls go through the
`outcome` oracle). -/
structure ProviderSpec where
  name : String
  models : List (String × String)
  cost_per_1k_tokens : ℚ
  priority : ℕ
  max_tokens : ℕ
  supports_streaming : Bool
deriving DecidableEq

/-- Result of one network call to a provider: the body of `_call_provider`
either returns content and usage or raises, which `generate` catches as a
per-provider error string. -/
inductive CallResult where
  | success (content : String) (usage : Usage)
  | failure (error : String)
deriving DecidableEq

/-- Whether a call result is a raised exception. -/
def isFailure : CallResult → Bool
  | .failure _ => true
  | .success _ _ => false

/-- `provider["models"].get(ai_type)` (line 108). -/
def lookupModel (p : ProviderSpec) (ai_type : String) : Option String :=
  (p.models.find? (fun kv => kv.1 = ai_type)).map (fun kv => kv.2)

/-- Line 109-111: `if not model: continue`.  A provider counts as
configured for `ai_type` iff the model lookup yields a *truthy* string
(present and nonempty); otherwise the provider is skipped. -/
def configuredModel (p : ProviderSpec) (ai_type : String) : Option String :=
  match lookupModel p ai_type with
  | none => none
  | some m => if m = "" then none else some m

/-- `self.provider_stats[name]` (line 70): successes, failures,
cumulative cost. -/
structure ProviderStats where
  successes : ℕ
  failures : ℕ
  total_cost : ℚ
deriving DecidableEq

/-- One `AIRequest` row written by `_log_request` (lines 254-285).
Timestamps, latency and user id are omitted (wall-clock data, no claim
mentions them). -/
structure AttemptRecord where
  ai_type : String
  provider : String
  model : String
  usage : Option Usage
  cost : Option ℚ
  success : Bool
  error_message : Option String
deriving DecidableEq

/-- The mutable state `generate` touches: the per-provider stats map and
the append-only request log.  The stats map is total over names; the
source initialises exactly the registered names to zero and only ever
indexes those. -/
structure LedgerState where
  provider_stats : String → ProviderStats
  log : List AttemptRecord

/-- State at process start (`__init__` line 70): all counters zero,
empty log. -/
def initLedger : LedgerState :=
  { provider_stats := fun _ => ⟨0, 0, 0⟩, log := [] }

/-- Pointwise update of one provider's stats. -/
def updateStats (st : String → ProviderStats) (n : String)
    (f : ProviderStats → ProviderStats) : String → ProviderStats :=
  fun m => if m = n then f (st m) else st m

/-- The parameters actually sent to a provider by `_call_provider`
(model, temperature, capped max-tokens; lines 116-123). -/
structure CallRecord where
  provider : String
  model : String
  temperature : ℚ
  max_tokens : ℕ
deriving DecidableEq

/-- The success dictionary `generate` returns (lines 149-156), minus the
wall-clock `response_time_ms` field. -/
structure GenResult where
  content : String
  provider : String
  model : String
  usage : Usage
  cost : ℚ
deriving DecidableEq

/-- `AIProviderManager._calculate_cost` (lines 250-252). -/
def calculate_cost (total_tokens : ℕ) (cost_per_1k : ℚ) : ℚ :=
  ((total_tokens : ℚ) / 1000) * cost_per_1k

/-- `settings.AI_TEMPERATURE` default (`src/config.py` line 52). -/
def AI_TEMPERATURE : ℚ := 0.7

/-- `settings.AI_MAX_TOKENS` default (`src/config.py` line 53). -/
def AI_MAX_TOKENS : ℕ := 2048

/-- Python `x or default` on an optional float argument: `None` and `0`
are both falsy and fall back to the default (line 97). -/
def orDefaultQ (o : Option ℚ) (d : ℚ) : ℚ :=
  match o with
  | none => d
  | some t => if t = 0 then d else t

/-- Python `x or default` on an optional int argument (line 98). -/
def orDefaultN (o : Option ℕ) (d : ℕ) : ℕ :=
  match o with
  | none => d
  | some t => if t = 0 then d else t

/-- Everything one call to `generate` produces: the returned dictionary or
the raised aggregate error (carrying the accumulated `(provider, error)`
list from which the exception message is formatted, lines 158-186), the
state after the call, and the list of provider calls actually issued. -/
structure GenOutcome where
  result : Except (List (String × String)) GenResult
  state : LedgerState
  calls : List CallRecord

/-- The provider loop of `generate` (lines 103-186) over an explicit
provider list: skip a provider with no truthy model for `ai_type`;
otherwise call it with `min(max_tokens, provider["max_tokens"])`; on
success update stats (+1 success, +cost), append a success record and
return; on failure record the `(name, error)` pair, update stats
(+1 failure), append a failure record and continue; when the list is
exhausted, raise with the accumulated error list. -/
def tryProviders (outcome : String → CallResult) (ai_type : String)
    (temperature : ℚ) (max_tokens : ℕ) :
    List ProviderSpec → List (String × String) → LedgerState → List CallRecord → GenOutcome
  | [], errors, st, calls => ⟨.error errors, st, calls⟩
  | p :: rest, errors, st, calls =>
    match configuredModel p ai_type with
    | none => tryProviders outcome ai_type temperature max_tokens rest errors st calls
    | some model =>
      let sent : CallRecord := ⟨p.name, model, temperature, min max_tokens p.max_tokens⟩
      match outcome p.name with
      | .success content usage =>
        let cost := calculate_cost usage.total_tokens p.cost_per_1k_tokens
        let st' : LedgerState :=
          { provider_stats := updateStats st.provider_stats p.name
              (fun s => { s with successes := s.successes + 1, total_cost := s.total_cost + cost }),
            log := st.log ++ [⟨ai_type, p.name, model, some usage, some cost, true, none⟩] }
        ⟨.ok ⟨content, p.name, model, usage, cost⟩, st', calls ++ [sent]⟩
      | .failure err =>
        let st' : LedgerState :=
          { provider_stats := updateStats st.provider_stats p.name
              (fun s => { s with failures := s.failures + 1 }),
            log := st.log ++ [⟨ai_type, p.name, model, none, none, false, some err⟩] }
        tryProviders outcome ai_type temperature max_tokens rest
          (errors ++ [(p.name, err)]) st' (calls ++ [sent])

/-- `sorted(self.providers, key=lambda x: x["priority"])` (line 103):
Python's `sorted` is a stable sort on the priority key; insertion sort
with `≤` on priorities is stable in the same sense. -/
def sortByPriority (ps : List ProviderSpec) : List ProviderSpec :=
  List.insertionSort (fun a b => a.priority ≤ b.priority) ps

/-- `AIProviderManager.generate` (lines 74-186): resolve effective
temperature and max-tokens (Python `or`-defaults), then run the provider
loop in ascending priority order. -/
def generate (providers : List ProviderSpec) (outcome : String → CallResult)
    (ai_type : String) (temperature : Option ℚ) (max_tokens : Option ℕ)
    (st : LedgerState) : GenOutcome :=
  tryProviders outcome ai_type (orDefaultQ temperature AI_TEMPERATURE)
    (orDefaultN max_tokens AI_MAX_TOKENS) (sortByPriority providers) [] st []

/-- The concrete registry from `__init__` (lines 27-67), with the
model-name settings at their `src/config.py` defaults (lines 34-44):
Groq (priority 1, $0.00059/1k, ceiling 8192), Together (priority 2,
$0.0009/1k, ceiling 8192), OpenRouter (priority 3, $0.001/1k,
ceiling 4096). -/
def defaultProviders : List ProviderSpec :=
  [⟨"groq", [("susan", "llama-3.3-70b-versatile"), ("agnes", "llama-3.3-70b-versatile")],
      0.00059, 1, 8192, true⟩,
   ⟨"together", [("susan", "Qwen/Qwen2.5-72B-Instruct-Turbo"), ("agnes", "Qwen/Qwen2.5-72B-Instruct-Turbo")],
      0.0009, 2, 8192, true⟩,
   ⟨"openrouter", [("susan", "auto"), ("agnes", "auto")],
      0.001, 3, 4096, true⟩]

/-- The call parameters `tryProviders` sends for each configured provider
of a list, in order: used to state which providers are called. -/
def sentList (ai_type : String) (temperature : ℚ) (max_tokens : ℕ)
    (l : List ProviderSpec) : List CallRecord :=
  l.filterMap (fun q => (configuredModel q ai_type).map
    (fun m => ⟨q.name, m, temperature, min max_tokens q.max_tokens⟩))

/-- The `(provider, error)` entry a provider contributes to the aggregate
failure list: present iff the provider is configured for the persona and
its call fails. -/
def failEntry (outcome : String → CallResult) (ai_type : String)
    (p : ProviderSpec) : Option (String × String) :=
  match configuredModel p ai_type with
  | none => none
  | some _ =>
    match outcome p.name with
    | .failure e => some (p.name, e)
    | .success _ _ => none

/-- Number of attempt records in a log naming provider `n`. -/
def recordCount (log : List AttemptRecord) (n : String) : ℕ :=
  (log.filter (fun r => r.provider = n)).length

/-- Number of issued calls naming provider `n`. -/
def callCount (calls : List CallRecord) (n : String) : ℕ :=
  (calls.filter (fun c => c.provider = n)).length

/-- Per-provider ledger invariant: successes + failures equals the number
of attempt records ever written for that provider. -/
def statsInvariant (st : LedgerState) : Prop :=
  ∀ n, (st.provider_stats n).successes + (st.provider_stats n).failures
      = recordCount st.log n

end AIProviderManager

namespace AIProviderManager

theorem tryProviders_nil (o : String → CallResult) (a : String) (t : ℚ) (m : ℕ)
    (e : List (String × String)) (st : LedgerState) (c : List CallRecord) :
    tryProviders o a t m [] e st c = ⟨.error e, st, c⟩ := rfl

theorem tryProviders_cons_skip (o : String → CallResult) (a : String) (t : ℚ) (m : ℕ)
    (p : ProviderSpec) (l : List ProviderSpec)
    (e : List (String × String)) (st : LedgerState) (c : List CallRecord)
    (h : configuredModel p a = none) :
    tryProviders o a t m (p :: l) e st c = tryProviders o a t m l e st c := by
  simp [tryProviders, h]

theorem tryProviders_cons_success (o : String → CallResult) (a : String) (t : ℚ) (m : ℕ)
    (p : ProviderSpec) (l : List ProviderSpec)
    (e : List (String × String)) (st : LedgerState) (c : List CallRecord)
    (mo : String) (cnt : String) (u : Usage)
    (hc : configuredModel p a = some mo) (hs : o p.name = .success cnt u) :
    tryProviders o a t m (p :: l) e st c =
      ⟨.ok ⟨cnt, p.name, mo, u, calculate_cost u.total_tokens p.cost_per_1k_tokens⟩,
       ⟨updateStats st.provider_stats p.name
          (fun s => { s with successes := s.successes + 1,
                             total_cost := s.total_cost + calculate_cost u.total_tokens p.cost_per_1k_tokens }),
        st.log ++ [⟨a, p.name, mo, some u, some (calculate_cost u.total_tokens p.cost_per_1k_tokens), true, none⟩]⟩,
       c ++ [⟨p.name, mo, t, min m p.max_tokens⟩]⟩ := by
  simp [tryProviders, hc, hs]

theorem tryProviders_cons_failure (o : String → CallResult) (a : String) (t : ℚ) (m : ℕ)
    (p : ProviderSpec) (l : List ProviderSpec)
    (e : List (String × String)) (st : LedgerState) (c : List CallRecord)
    (mo : String) (err : String)
    (hc : configuredModel p a = some mo) (hf : o p.name = .failure err) :
    tryProviders o a t m (p :: l) e st c =
      tryProviders o a t m l (e ++ [(p.name, err)])
        ⟨updateStats st.provider_stats p.name (fun s => { s with failures := s.failures + 1 }),
         st.log ++ [⟨a, p.name, mo, none, none, false, some err⟩]⟩
        (c ++ [⟨p.name, mo, t, min m p.max_tokens⟩]) := by
  simp [tryProviders, hc, hf]

/-- If every provider in the list is unconfigured for the persona, the loop
touches nothing: it raises with the error list as given, leaves the state
untouched and issues no call. -/
theorem tryProviders_all_skip (o : String → CallResult) (a : String) (t : ℚ) (m : ℕ)
    (l : List ProviderSpec) (e : List (String × String)) (st : LedgerState)
    (c : List CallRecord)
    (h : ∀ p ∈ l, configuredModel p a = none) :
    tryProviders o a t m l e st c = ⟨.error e, st, c⟩ := by
  induction l with
  | nil => rfl
  | cons p rest ih =>
    rw [tryProviders_cons_skip o a t m p rest e st c (h p (List.mem_cons_self p rest))]
    exact ih (fun q hq => h q (List.mem_cons_of_mem p hq))

/-- If every configured provider in the list fails, the loop raises, and the
error list it raises with extends the accumulator by exactly the
`failEntry` of each configured provider, in list order. -/
theorem tryProviders_all_fail (o : String → CallResult) (a : String) (t : ℚ) (m : ℕ)
    (l : List ProviderSpec) :
    ∀ (e : List (String × String)) (st : LedgerState) (c : List CallRecord),
    (∀ p ∈ l, ∀ mo, configuredModel p a = some mo → isFailure (o p.name) = true) →
    (tryProviders o a t m l e st c).result = .error (e ++ l.filterMap (failEntry o a)) ∧
    (tryProviders o a t m l e st c).calls = c ++ sentList a t m l := by
  induction l with
  | nil => intro e st c _; simp [tryProviders_nil, sentList]
  | cons p rest ih =>
    intro e st c h
    cases hc : configuredModel p a with
    | none =>
      rw [tryProviders_cons_skip o a t m p rest e st c hc]
      have := ih e st c (fun q hq => h q (List.mem_cons_of_mem p hq))
      simpa [List.filterMap_cons, failEntry, hc, sentList] using this
    | some mo =>
      have hf : isFailure (o p.name) = true := h p (List.mem_cons_self p rest) mo hc
      cases ho : o p.name with
      | success cnt u => rw [ho] at hf; simp [isFailure] at hf
      | failure err =>
        rw [tryProviders_cons_failure o a t m p rest e st c mo err hc ho]
        have := ih (e ++ [(p.name, err)])
          ⟨updateStats st.provider_stats p.name (fun s => { s with failures := s.failures + 1 }),
           st.log ++ [⟨a, p.name, mo, none, none, false, some err⟩]⟩
          (c ++ [⟨p.name, mo, t, min m p.max_tokens⟩])
          (fun q hq => h q (List.mem_cons_of_mem p hq))
        constructor
        · rw [this.1]
          simp [List.filterMap_cons, failEntry, hc, ho]
        · rw [this.2]
          simp [sentList, List.filterMap_cons, hc]

end AIProviderManager

namespace AIProviderManager

/-- Reaching the first configured *and* succeeding provider: every
configured provider before it fails, so the loop returns that provider's
result, and the calls issued are exactly the configured prefix plus the
succeeding provider — nothing after it. -/
theorem tryProviders_first_success (o : String → CallResult) (a : String) (t : ℚ) (m : ℕ)
    (l₁ : List ProviderSpec) :
    ∀ (p : ProviderSpec) (l₂ : List ProviderSpec) (e : List (String × String))
      (st : LedgerState) (c : List CallRecord) (mo cnt : String) (u : Usage),
    (∀ q ∈ l₁, ∀ mq, configuredModel q a = some mq → isFailure (o q.name) = true) →
    configuredModel p a = some mo →
    o p.name = .success cnt u →
    (tryProviders o a t m (l₁ ++ p :: l₂) e st c).result
        = .ok ⟨cnt, p.name, mo, u, calculate_cost u.total_tokens p.cost_per_1k_tokens⟩ ∧
    (tryProviders o a t m (l₁ ++ p :: l₂) e st c).calls
        = c ++ sentList a t m l₁ ++ [⟨p.name, mo, t, min m p.max_tokens⟩] := by
  induction l₁ with
  | nil =>
    intro p l₂ e st c mo cnt u _ hc hs
    rw [List.nil_append, tryProviders_cons_success o a t m p l₂ e st c mo cnt u hc hs]
    simp [sentList]
  | cons q rest ih =>
    intro p l₂ e st c mo cnt u h hc hs
    cases hq : configuredModel q a with
    | none =>
      rw [List.cons_append, tryProviders_cons_skip o a t m q (rest ++ p :: l₂) e st c hq]
      have := ih p l₂ e st c mo cnt u (fun r hr => h r (List.mem_cons_of_mem q hr)) hc hs
      simpa [sentList, List.filterMap_cons, hq] using this
    | some mq =>
      have hf : isFailure (o q.name) = true := h q (List.mem_cons_self q rest) mq hq
      cases ho : o q.name with
      | success cnt' u' => rw [ho] at hf; simp [isFailure] at hf
      | failure err =>
        rw [List.cons_append, tryProviders_cons_failure o a t m q (rest ++ p :: l₂) e st c mq err hq ho]
        have := ih p l₂ (e ++ [(q.name, err)])
          ⟨updateStats st.provider_stats q.name (fun s => { s with failures := s.failures + 1 }),
           st.log ++ [⟨a, q.name, mq, none, none, false, some err⟩]⟩
          (c ++ [⟨q.name, mq, t, min m q.max_tokens⟩]) mo cnt u
          (fun r hr => h r (List.mem_cons_of_mem q hr)) hc hs
        refine ⟨this.1, ?_⟩
        rw [this.2]
        simp [sentList, List.filterMap_cons, hq]

/-- Inversion: a successful loop result comes from some configured
provider of the list, carries that provider's name and resolved model,
passes the oracle-reported content and usage through unchanged, and its
cost is exactly `total_tokens / 1000 * rate` for that provider. -/
theorem tryProviders_ok_inv (o : String → CallResult) (a : String) (t : ℚ) (m : ℕ)
    (l : List ProviderSpec) :
    ∀ (e : List (String × String)) (st : LedgerState) (c : List CallRecord) (r : GenResult),
    (tryProviders o a t m l e st c).result = .ok r →
    ∃ p ∈ l, ∃ mo, configuredModel p a = some mo ∧ r.provider = p.name ∧ r.model = mo ∧
      o p.name = .success r.content r.usage ∧
      r.cost = calculate_cost r.usage.total_tokens p.cost_per_1k_tokens := by
  induction l with
  | nil => intro e st c r h; rw [tryProviders_nil] at h; exact absurd h (by simp)
  | cons p rest ih =>
    intro e st c r h
    cases hc : configuredModel p a with
    | none =>
      rw [tryProviders_cons_skip o a t m p rest e st c hc] at h
      obtain ⟨q, hq, hrest⟩ := ih e st c r h
      exact ⟨q, List.mem_cons_of_mem p hq, hrest⟩
    | some mo =>
      cases ho : o p.name with
      | success cnt u =>
        rw [tryProviders_cons_success o a t m p rest e st c mo cnt u hc ho] at h
        have hr : r = ⟨cnt, p.name, mo, u, calculate_cost u.total_tokens p.cost_per_1k_tokens⟩ := by
          cases h; rfl
        subst hr
        exact ⟨p, List.mem_cons_self p rest, mo, hc, rfl, rfl, ho, rfl⟩
      | failure err =>
        rw [tryProviders_cons_failure o a t m p rest e st c mo err hc ho] at h
        obtain ⟨q, hq, hrest⟩ := ih _ _ _ r h
        exact ⟨q, List.mem_cons_of_mem p hq, hrest⟩

/-- Inversion: if the loop raises, every configured provider in the list
failed (the aggregate error is raised only on total exhaustion). -/
theorem tryProviders_error_inv (o : String → CallResult) (a : String) (t : ℚ) (m : ℕ)
    (l : List ProviderSpec) :
    ∀ (e : List (String × String)) (st : LedgerState) (c : List CallRecord)
      (l' : List (String × String)),
    (tryProviders o a t m l e st c).result = .error l' →
    ∀ p ∈ l, ∀ mo, configuredModel p a = some mo → isFailure (o p.name) = true := by
  induction l with
  | nil => intro e st c l' _ p hp; exact absurd hp (List.not_mem_nil p)
  | cons p rest ih =>
    intro e st c l' h q hq mo hmo
    cases hc : configuredModel p a with
    | none =>
      rw [tryProviders_cons_skip o a t m p rest e st c hc] at h
      rcases List.mem_cons.mp hq with rfl | hq'
      · rw [hmo] at hc; exact absurd hc (by simp)
      · exact ih e st c l' h q hq' mo hmo
    | some mp =>
      cases ho : o p.name with
      | success cnt u =>
        rw [tryProviders_cons_success o a t m p rest e st c mp cnt u hc ho] at h
        exact absurd h (by simp)
      | failure err =>
        rw [tryProviders_cons_failure o a t m p rest e st c mp err hc ho] at h
        rcases List.mem_cons.mp hq with rfl | hq'
        · rw [ho]; rfl
        · exact ih _ _ _ l' h q hq' mo hmo

end AIProviderManager

namespace AIProviderManager

theorem recordCount_append_one (log : List AttemptRecord) (r : AttemptRecord) (n : String) :
    recordCount (log ++ [r]) n = recordCount log n + (if r.provider = n then 1 else 0) := by
  by_cases h : r.provider = n <;> simp [recordCount, List.filter_append, h]

theorem callCount_nil (n : String) : callCount [] n = 0 := rfl

theorem callCount_cons (cr : CallRecord) (cs : List CallRecord) (n : String) :
    callCount (cr :: cs) n = (if cr.provider = n then 1 else 0) + callCount cs n := by
  by_cases h : cr.provider = n <;> simp [callCount, List.filter_cons, h, Nat.add_comm]

theorem updateStats_apply (st : String → ProviderStats) (nm : String)
    (f : ProviderStats → ProviderStats) (n : String) :
    updateStats st nm f n = if n = nm then f (st n) else st n := rfl

/-- Accounting for one pass of the loop: the calls issued extend the
accumulator by some `nc`; each tried provider is a configured member of
the list; and for every provider name the pass appends exactly
`callCount nc n` attempt records and adds exactly `callCount nc n` to
`successes + failures`. -/
theorem tryProviders_counts (o : String → CallResult) (a : String) (t : ℚ) (m : ℕ)
    (l : List ProviderSpec) :
    ∀ (e : List (String × String)) (st : LedgerState) (c : List CallRecord),
    ∃ nc : List CallRecord,
      (tryProviders o a t m l e st c).calls = c ++ nc ∧
      (∀ n, recordCount (tryProviders o a t m l e st c).state.log n
          = recordCount st.log n + callCount nc n) ∧
      (∀ n, ((tryProviders o a t m l e st c).state.provider_stats n).successes
              + ((tryProviders o a t m l e st c).state.provider_stats n).failures
          = (st.provider_stats n).successes + (st.provider_stats n).failures + callCount nc n) ∧
      (∀ cr ∈ nc, ∃ p ∈ l, cr.provider = p.name ∧ configuredModel p a ≠ none) := by
  induction l with
  | nil =>
    intro e st c
    exact ⟨[], by simp [tryProviders_nil], fun n => by simp [tryProviders_nil, callCount_nil],
      fun n => by simp [tryProviders_nil, callCount_nil],
      fun cr hcr => absurd hcr (List.not_mem_nil cr)⟩
  | cons p rest ih =>
    intro e st c
    cases hc : configuredModel p a with
    | none =>
      obtain ⟨nc, h1, h2, h3, h4⟩ := ih e st c
      rw [tryProviders_cons_skip o a t m p rest e st c hc] at *
      exact ⟨nc, h1, h2, h3,
        fun cr hcr => by
          obtain ⟨q, hq, hrest⟩ := h4 cr hcr
          exact ⟨q, List.mem_cons_of_mem p hq, hrest⟩⟩
    | some mo =>
      cases ho : o p.name with
      | success cnt u =>
        rw [tryProviders_cons_success o a t m p rest e st c mo cnt u hc ho]
        refine ⟨[⟨p.name, mo, t, min m p.max_tokens⟩], rfl, ?_, ?_, ?_⟩
        · intro n
          rw [recordCount_append_one, callCount_cons, callCount_nil]
          simp
        · intro n
          rw [callCount_cons, callCount_nil]
          by_cases h : n = p.name
          · subst h; simp [updateStats_apply]; ring
          · have h' : ¬ (p.name = n) := fun hp => h hp.symm
            simp [updateStats_apply, h, h']
        · intro cr hcr
          rcases List.mem_singleton.mp hcr with rfl
          exact ⟨p, List.mem_cons_self p rest, rfl, by rw [hc]; simp⟩
      | failure err =>
        rw [tryProviders_cons_failure o a t m p rest e st c mo err hc ho]
        obtain ⟨nc, h1, h2, h3, h4⟩ := ih (e ++ [(p.name, err)])
          ⟨updateStats st.provider_stats p.name (fun s => { s with failures := s.failures + 1 }),
           st.log ++ [⟨a, p.name, mo, none, none, false, some err⟩]⟩
          (c ++ [⟨p.name, mo, t, min m p.max_tokens⟩])
        refine ⟨⟨p.name, mo, t, min m p.max_tokens⟩ :: nc, ?_, ?_, ?_, ?_⟩
        · rw [h1]; simp
        · intro n
          rw [h2 n, callCount_cons]
          simp only [recordCount_append_one]
          ring
        · intro n
          rw [h3 n, callCount_cons]
          by_cases h : n = p.name
          · subst h; simp [updateStats_apply]; ring
          · have h' : ¬ (p.name = n) := fun hp => h hp.symm
            simp [updateStats_apply, h, h']
        · intro cr hcr
          rcases List.mem_cons.mp hcr with rfl | hcr'
          · exact ⟨p, List.mem_cons_self p rest, rfl, by rw [hc]; simp⟩
          · obtain ⟨q, hq, hrest⟩ := h4 cr hcr'
            exact ⟨q, List.mem_cons_of_mem p hq, hrest⟩

end AIProviderManager

namespace AIProviderManager

theorem mem_sortByPriority (p : ProviderSpec) (ps : List ProviderSpec) :
    p ∈ sortByPriority ps ↔ p ∈ ps :=
  (List.perm_insertionSort (fun a b => a.priority ≤ b.priority) ps).mem_iff

/-- When every configured provider of a list fails, the aggregate error
entries are in bijection with the configured providers, in list order. -/
theorem failEntry_names (o : String → CallResult) (a : String) (l : List ProviderSpec)
    (h : ∀ p ∈ l, ∀ mo, configuredModel p a = some mo → isFailure (o p.name) = true) :
    (l.filterMap (failEntry o a)).map Prod.fst
      = (l.filter (fun p => (configuredModel p a).isSome)).map ProviderSpec.name := by
  induction l with
  | nil => rfl
  | cons p rest ih =>
    have ihr := ih (fun q hq => h q (List.mem_cons_of_mem p hq))
    cases hc : configuredModel p a with
    | none => simpa [List.filterMap_cons, List.filter_cons, failEntry, hc] using ihr
    | some mo =>
      have hf : isFailure (o p.name) = true := h p (List.mem_cons_self p rest) mo hc
      cases ho : o p.name with
      | success cnt u => rw [ho] at hf; simp [isFailure] at hf
      | failure err =>
        simpa [List.filterMap_cons, List.filter_cons, failEntry, hc, ho] using ihr

/-- Every call issued by the loop (beyond the accumulator) goes to a
configured provider of the list, with that provider's resolved model, the
loop's temperature, and max-tokens capped at the provider's ceiling. -/
theorem tryProviders_calls_shape (o : String → CallResult) (a : String) (t : ℚ) (m : ℕ)
    (l : List ProviderSpec) :
    ∀ (e : List (String × String)) (st : LedgerState) (c : List CallRecord),
    ∀ cr ∈ (tryProviders o a t m l e st c).calls,
      cr ∈ c ∨ ∃ p ∈ l, ∃ mo, configuredModel p a = some mo ∧
        cr = ⟨p.name, mo, t, min m p.max_tokens⟩ := by
  induction l with
  | nil => intro e st c cr hcr; rw [tryProviders_nil] at hcr; exact Or.inl hcr
  | cons p rest ih =>
    intro e st c cr hcr
    cases hc : configuredModel p a with
    | none =>
      rw [tryProviders_cons_skip o a t m p rest e st c hc] at hcr
      rcases ih e st c cr hcr with h | ⟨q, hq, hrest⟩
      · exact Or.inl h
      · exact Or.inr ⟨q, List.mem_cons_of_mem p hq, hrest⟩
    | some mo =>
      cases ho : o p.name with
      | success cnt u =>
        rw [tryProviders_cons_success o a t m p rest e st c mo cnt u hc ho] at hcr
        rcases List.mem_append.mp hcr with h | h
        · exact Or.inl h
        · rcases List.mem_singleton.mp h with rfl
          exact Or.inr ⟨p, List.mem_cons_self p rest, mo, hc, rfl⟩
      | failure err =>
        rw [tryProviders_cons_failure o a t m p rest e st c mo err hc ho] at hcr
        rcases ih _ _ _ cr hcr with h | ⟨q, hq, hrest⟩
        · rcases List.mem_append.mp h with h' | h'
          · exact Or.inl h'
          · rcases List.mem_singleton.mp h' with rfl
            exact Or.inr ⟨p, List.mem_cons_self p rest, mo, hc, rfl⟩
        · exact Or.inr ⟨q, List.mem_cons_of_mem p hq, hrest⟩

end AIProviderManager

open AIProviderManager IntelligentRouter

/-- C1: if, in the priority-sorted provider order (Python's `sorted` is
stable, so registration order breaks priority ties), every configured
provider before `p` fails while `p` is configured for the persona and its
call succeeds, then `generate` returns exactly `p`'s result (content and
usage passed through, `p`'s name, resolved model and cost), and the calls
issued are precisely the configured providers before `p` followed by `p`
itself — no provider after `p` is called. -/
theorem C1_generate_first_success_wins
    (providers : List ProviderSpec) (outcome : String → CallResult) (ai_type : String)
    (temperature : Option ℚ) (max_tokens : Option ℕ) (st : LedgerState)
    (l₁ : List ProviderSpec) (p : ProviderSpec) (l₂ : List ProviderSpec)
    (mo cnt : String) (u : Usage)
    (hsplit : sortByPriority providers = l₁ ++ p :: l₂)
    (hbefore : ∀ q ∈ l₁, ∀ mq, configuredModel q ai_type = some mq →
        isFailure (outcome q.name) = true)
    (hconf : configuredModel p ai_type = some mo)
    (hsucc : outcome p.name = .success cnt u) :
    (generate providers outcome ai_type temperature max_tokens st).result
        = .ok ⟨cnt, p.name, mo, u, calculate_cost u.total_tokens p.cost_per_1k_tokens⟩ ∧
    (generate providers outcome ai_type temperature max_tokens st).calls
        = sentList ai_type (orDefaultQ temperature AI_TEMPERATURE)
            (orDefaultN max_tokens AI_MAX_TOKENS) l₁
          ++ [⟨p.name, mo, orDefaultQ temperature AI_TEMPERATURE,
               min (orDefaultN max_tokens AI_MAX_TOKENS) p.max_tokens⟩] := by
  unfold generate
  rw [hsplit]
  have := tryProviders_first_success outcome ai_type
    (orDefaultQ temperature AI_TEMPERATURE) (orDefaultN max_tokens AI_MAX_TOKENS)
    l₁ p l₂ [] st [] mo cnt u hbefore hconf hsucc
  simpa using this

/-- C2: when every provider that has a model configured for the persona
fails, `generate` raises the aggregate all-providers-exhausted error; the
`(provider, error)` list it carries (from which the exception message is
formatted) has exactly one entry per configured provider, in priority
order; and—conversely—this error is raised only when every configured
provider failed, so it is the only error surfaced to the caller. -/
theorem C2_generate_exhausted_error
    (providers : List ProviderSpec) (outcome : String → CallResult) (ai_type : String)
    (temperature : Option ℚ) (max_tokens : Option ℕ) (st : LedgerState)
    (hfail : ∀ p ∈ providers, ∀ mo, configuredModel p ai_type = some mo →
        isFailure (outcome p.name) = true) :
    (generate providers outcome ai_type temperature max_tokens st).result
        = .error ((sortByPriority providers).filterMap (failEntry outcome ai_type)) ∧
    ((sortByPriority providers).filterMap (failEntry outcome ai_type)).map Prod.fst
        = ((sortByPriority providers).filter
            (fun p => (configuredModel p ai_type).isSome)).map ProviderSpec.name ∧
    (∀ (providers' : List ProviderSpec) (outcome' : String → CallResult)
       (a' : String) (t' : Option ℚ) (m' : Option ℕ) (st' : LedgerState)
       (l' : List (String × String)),
      (generate providers' outcome' a' t' m' st').result = .error l' →
      ∀ p ∈ providers', ∀ mo, configuredModel p a' = some mo →
        isFailure (outcome' p.name) = true) := by
  have hsorted : ∀ p ∈ sortByPriority providers, ∀ mo,
      configuredModel p ai_type = some mo → isFailure (outcome p.name) = true :=
    fun p hp => hfail p ((mem_sortByPriority p providers).mp hp)
  refine ⟨?_, failEntry_names outcome ai_type (sortByPriority providers) hsorted, ?_⟩
  · have := tryProviders_all_fail outcome ai_type
      (orDefaultQ temperature AI_TEMPERATURE) (orDefaultN max_tokens AI_MAX_TOKENS)
      (sortByPriority providers) [] st [] hsorted
    simpa [generate] using this.1
  · intro providers' outcome' a' t' m' st' l' herr p hp mo hmo
    exact tryProviders_error_inv outcome' a'
      (orDefaultQ t' AI_TEMPERATURE) (orDefaultN m' AI_MAX_TOKENS)
      (sortByPriority providers') [] st' [] l' (by simpa [generate] using herr)
      p ((mem_sortByPriority p providers').mpr hp) mo hmo

/-- C9: if no provider has a (truthy) model configured for the requested
persona, `generate` raises the aggregate error with an empty attempt
list, leaves the ledger state untouched (no stats change, no attempt
record) and issues no provider call. -/
theorem C9_generate_unconfigured_noop
    (providers : List ProviderSpec) (outcome : String → CallResult) (ai_type : String)
    (temperature : Option ℚ) (max_tokens : Option ℕ) (st : LedgerState)
    (hnone : ∀ p ∈ providers, configuredModel p ai_type = none) :
    generate providers outcome ai_type temperature max_tokens st
      = ⟨.error [], st, []⟩ := by
  unfold generate
  exact tryProviders_all_skip outcome ai_type
    (orDefaultQ temperature AI_TEMPERATURE) (orDefaultN max_tokens AI_MAX_TOKENS)
    (sortByPriority providers) [] st []
    (fun p hp => hnone p ((mem_sortByPriority p providers).mp hp))

/-- C3 (amended): for every successful `generate` result, the reported
cost is exactly `totalTokens / 1000 * rate` of the serving provider, with
no intermediate rounding, and the reported usage is the provider-reported
usage passed through unchanged — hence `total = prompt + completion`
holds whenever the provider's reported usage satisfies it (the gateway
itself never recomputes token counts, so it cannot enforce it). -/
theorem C3_generate_cost_exact_usage_passthrough :
    (∀ (providers : List ProviderSpec) (outcome : String → CallResult) (ai_type : String)
       (temperature : Option ℚ) (max_tokens : Option ℕ) (st : LedgerState) (r : GenResult),
      (generate providers outcome ai_type temperature max_tokens st).result = .ok r →
      ∃ p, p ∈ providers ∧ r.provider = p.name ∧
        outcome p.name = CallResult.success r.content r.usage ∧
        r.cost = ((r.usage.total_tokens : ℚ) / 1000) * p.cost_per_1k_tokens) ∧
    (∀ (providers : List ProviderSpec) (outcome : String → CallResult) (ai_type : String)
       (temperature : Option ℚ) (max_tokens : Option ℕ) (st : LedgerState) (r : GenResult),
      (∀ n cnt u, outcome n = CallResult.success cnt u →
          u.total_tokens = u.prompt_tokens + u.completion_tokens) →
      (generate providers outcome ai_type temperature max_tokens st).result = .ok r →
      r.usage.total_tokens = r.usage.prompt_tokens + r.usage.completion_tokens) := by
  have key : ∀ (providers : List ProviderSpec) (outcome : String → CallResult) (ai_type : String)
      (temperature : Option ℚ) (max_tokens : Option ℕ) (st : LedgerState) (r : GenResult),
      (generate providers outcome ai_type temperature max_tokens st).result = .ok r →
      ∃ p, p ∈ providers ∧ r.provider = p.name ∧
        outcome p.name = CallResult.success r.content r.usage ∧
        r.cost = ((r.usage.total_tokens : ℚ) / 1000) * p.cost_per_1k_tokens := by
    intro providers outcome ai_type temperature max_tokens st r h
    obtain ⟨p, hp, mo, _, hname, _, hcall, hcost⟩ :=
      tryProviders_ok_inv outcome ai_type
        (orDefaultQ temperature AI_TEMPERATURE) (orDefaultN max_tokens AI_MAX_TOKENS)
        (sortByPriority providers) [] st [] r (by simpa [generate] using h)
    exact ⟨p, (mem_sortByPriority p providers).mp hp, hname, hcall, hcost⟩
  refine ⟨key, ?_⟩
  intro providers outcome ai_type temperature max_tokens st r hcoh h
  obtain ⟨p, _, _, hcall, _⟩ := key providers outcome ai_type temperature max_tokens st r h
  exact hcoh p.name r.content r.usage hcall

/-- C3 (counterexample): the gateway passes provider-reported usage
through without recomputation, so when a provider reports an incoherent
usage (here `prompt = 1`, `completion = 1`, `total = 5`), the successful
result's usage violates `total = prompt + completion`, refuting the claim
as stated. -/
theorem C3_incoherent_usage_counterexample :
    ∃ r, (generate defaultProviders
            (fun _ => CallResult.success "ok" ⟨1, 1, 5⟩)
            "susan" none none initLedger).result = .ok r ∧
      r.usage.total_tokens ≠ r.usage.prompt_tokens + r.usage.completion_tokens := by
  refine ⟨⟨"ok", "groq", "llama-3.3-70b-versatile", ⟨1, 1, 5⟩,
    calculate_cost 5 0.00059⟩, ?_, by decide⟩
  with_unfolding_all rfl

/-- C5 (amended): the effective temperature and max-tokens are the
caller's override when one is present and *truthy* (Python `or`: a zero
override falls back to the process-wide default, see `orDefaultQ`/
`orDefaultN`), and every call actually issued carries max-tokens
`min(effective, provider ceiling)` — so no provider receives a request
exceeding its ceiling. -/
theorem C5_generate_effective_params
    (providers : List ProviderSpec) (outcome : String → CallResult) (ai_type : String)
    (temperature : Option ℚ) (max_tokens : Option ℕ) (st : LedgerState) :
    ∀ cr ∈ (generate providers outcome ai_type temperature max_tokens st).calls,
      cr.temperature = orDefaultQ temperature AI_TEMPERATURE ∧
      ∃ p, p ∈ providers ∧ cr.provider = p.name ∧
        cr.max_tokens = min (orDefaultN max_tokens AI_MAX_TOKENS) p.max_tokens ∧
        cr.max_tokens ≤ p.max_tokens := by
  intro cr hcr
  rcases tryProviders_calls_shape outcome ai_type
      (orDefaultQ temperature AI_TEMPERATURE) (orDefaultN max_tokens AI_MAX_TOKENS)
      (sortByPriority providers) [] st [] cr (by simpa [generate] using hcr) with
    h | ⟨p, hp, mo, _, rfl⟩
  · exact absurd h (List.not_mem_nil cr)
  · exact ⟨rfl, p, (mem_sortByPriority p providers).mp hp, rfl, rfl, min_le_right _ _⟩

/-- C5 (counterexample): with explicit zero overrides for temperature and
max-tokens, the claim as stated demands the zero values be used, but
Python's `or`-defaulting sends the process defaults instead: the one call
issued carries temperature `0.7` (≠ 0) and max-tokens `2048`
(= `min(2048, 8192)`, not `min(0, 8192) = 0`). -/
theorem C5_zero_override_counterexample :
    (generate defaultProviders (fun _ => CallResult.success "ok" ⟨1, 1, 2⟩)
        "susan" (some 0) (some 0) initLedger).calls
      = [⟨"groq", "llama-3.3-70b-versatile", 0.7, 2048⟩] ∧
    (0.7 : ℚ) ≠ 0 ∧ (2048 : ℕ) ≠ min 0 8192 := by
  refine ⟨?_, ?_, by decide⟩
  · with_unfolding_all rfl
  · with_unfolding_all decide

/-- C6: the ledger accounting of `generate`.  The invariant
`successes + failures = records ever written` holds initially; every call
appends exactly one attempt record per provider tried and adds exactly
one to that provider's `successes + failures` (per provider name,
`callCount` many); every provider tried is a configured member of the
registry (skipped/unconfigured providers produce neither a record nor a
stats update); consequently the invariant is preserved by every call. -/
theorem C6_generate_ledger_accounting :
    statsInvariant initLedger ∧
    (∀ (providers : List ProviderSpec) (outcome : String → CallResult) (ai_type : String)
       (temperature : Option ℚ) (max_tokens : Option ℕ) (st : LedgerState),
      (∀ n, recordCount (generate providers outcome ai_type temperature max_tokens st).state.log n
          = recordCount st.log n
            + callCount (generate providers outcome ai_type temperature max_tokens st).calls n) ∧
      (∀ n, ((generate providers outcome ai_type temperature max_tokens st).state.provider_stats n).successes
              + ((generate providers outcome ai_type temperature max_tokens st).state.provider_stats n).failures
          = (st.provider_stats n).successes + (st.provider_stats n).failures
            + callCount (generate providers outcome ai_type temperature max_tokens st).calls n) ∧
      (∀ cr ∈ (generate providers outcome ai_type temperature max_tokens st).calls,
        ∃ p ∈ providers, cr.provider = p.name ∧ configuredModel p ai_type ≠ none) ∧
      (statsInvariant st →
        statsInvariant (generate providers outcome ai_type temperature max_tokens st).state)) := by
  constructor
  · intro n; simp [initLedger, recordCount]
  · intro providers outcome ai_type temperature max_tokens st
    obtain ⟨nc, h1, h2, h3, h4⟩ := tryProviders_counts outcome ai_type
      (orDefaultQ temperature AI_TEMPERATURE) (orDefaultN max_tokens AI_MAX_TOKENS)
      (sortByPriority providers) [] st []
    have hcalls : (generate providers outcome ai_type temperature max_tokens st).calls = nc := by
      simpa [generate] using h1
    have h2' : ∀ n, recordCount (generate providers outcome ai_type temperature max_tokens st).state.log n
        = recordCount st.log n + callCount nc n := by
      intro n; simpa [generate] using h2 n
    have h3' : ∀ n, ((generate providers outcome ai_type temperature max_tokens st).state.provider_stats n).successes
          + ((generate providers outcome ai_type temperature max_tokens st).state.provider_stats n).failures
        = (st.provider_stats n).successes + (st.provider_stats n).failures + callCount nc n := by
      intro n; simpa [generate] using h3 n
    refine ⟨fun n => by rw [hcalls]; exact h2' n,
            fun n => by rw [hcalls]; exact h3' n, ?_, ?_⟩
    · intro cr hcr
      rw [hcalls] at hcr
      obtain ⟨p, hp, hrest⟩ := h4 cr hcr
      exact ⟨p, (mem_sortByPriority p providers).mp hp, hrest⟩
    · intro hinv n
      rw [h3' n, hinv n, h2' n]

/-- C4 (code bug): `route` lower-cases the message but
`_calculate_keyword_score` compares the table keys verbatim, so keys
containing upper-case letters can never match.  Concretely: `GAF` is in
the Susan table with weight 1.0, the message "Does GAF warranty cover
this?" contains it under case-insensitive matching, yet the keyword score
the router computes for the lower-cased message is 0 (and so is the whole
technical score with empty context) instead of the claimed 1.0. -/
theorem C4_uppercase_keywords_never_match :
    SUSAN_KEYWORDS[7]? = some ("GAF", 1) ∧
    strContains (strLower "Does GAF warranty cover this?") (strLower "GAF") = true ∧
    calculate_keyword_score (strLower "Does GAF warranty cover this?") SUSAN_KEYWORDS = 0 ∧
    technical_score (strLower "Does GAF warranty cover this?") emptyContext = 0 := by
  refine ⟨?_, ?_, ?_, ?_⟩ <;> with_unfolding_all rfl

/-- C7 (counterexample): on the empty message with an active training
scenario in context the two final scores tie at zero, yet `route` does
not return the default persona at 0.5 — the active-scenario rule fires
first and returns `agnes` at confidence 1. -/
theorem C7_tie_overridden_counterexample :
    training_score (strLower "") { active_training_scenario := true } = 0 ∧
    technical_score (strLower "") { active_training_scenario := true } = 0 ∧
    route "" { active_training_scenario := true }
      = ("agnes", Reason.activeScenario, 1) ∧
    ("agnes" : String) ≠ "susan" := by
  refine ⟨?_, ?_, ?_, by decide⟩ <;> with_unfolding_all rfl

/-- C7 (amended): `route` is a total function (it always yields one of
the two personas — it cannot raise); `route("", {})` returns the
documented default persona `susan` at confidence exactly 0.5; and the
same default at 0.5 is returned whenever the final scores tie exactly
*and* no higher-priority rule fires (no one-sided explicit mention, no
active training scenario, no ≥3-message continuity streak). -/
theorem C7_route_default_on_tie :
    route "" emptyContext = ("susan", Reason.defaultRoute, 0.5) ∧
    (∀ (msg : String) (ctx : RoutingContext),
      strContains (strLower msg) "susan" = strContains (strLower msg) "agnes" →
      ctx.active_training_scenario = false →
      (ctx.last_ai = some "agnes" → ctx.agnes_message_count < 3) →
      (ctx.last_ai = some "susan" → ctx.susan_message_count < 3) →
      training_score (strLower msg) ctx = technical_score (strLower msg) ctx →
      route msg ctx = ("susan", Reason.defaultRoute, 0.5)) ∧
    (∀ (msg : String) (ctx : RoutingContext),
      (route msg ctx).1 = "susan" ∨ (route msg ctx).1 = "agnes") := by
  refine ⟨by with_unfolding_all rfl, ?_, ?_⟩
  · intro msg ctx h1 h2 h3 h4 htie
    have e1 : (strContains (strLower msg) "susan" && !strContains (strLower msg) "agnes") = false := by
      rw [h1]; cases strContains (strLower msg) "agnes" <;> rfl
    have e2 : (strContains (strLower msg) "agnes" && !strContains (strLower msg) "susan") = false := by
      rw [h1]; cases strContains (strLower msg) "agnes" <;> rfl
    have e3 : (ctx.last_ai == some "agnes" && decide (3 ≤ ctx.agnes_message_count)) = false := by
      by_cases hla : ctx.last_ai = some "agnes"
      · have hlt := h3 hla
        simp only [hla, beq_self_eq_true, Bool.true_and]
        exact decide_eq_false (by omega)
      · have : (ctx.last_ai == some "agnes") = false := by
          simpa [beq_iff_eq] using hla
        simp [this]
    have e4 : (ctx.last_ai == some "susan" && decide (3 ≤ ctx.susan_message_count)) = false := by
      by_cases hla : ctx.last_ai = some "susan"
      · have hlt := h4 hla
        simp only [hla, beq_self_eq_true, Bool.true_and]
        exact decide_eq_false (by omega)
      · have : (ctx.last_ai == some "susan") = false := by
          simpa [beq_iff_eq] using hla
        simp [this]
    simp [route, e1, e2, h2, e3, e4, htie]
  · intro msg ctx
    unfold route
    cases hsus : strContains (strLower msg) "susan" <;>
      cases hag : strContains (strLower msg) "agnes" <;>
        simp only [hsus, hag, Bool.false_and, Bool.true_and, Bool.and_false, Bool.and_true,
          Bool.not_false, Bool.not_true, if_true, if_false] <;>
          (repeat' split) <;> simp

/-- C8: `suggest_handoff` returns no suggestion below the 3-turn floor;
at or above it, it re-runs `route` and yields a suggestion iff the routed
persona differs from the current one and the routed confidence is ≥ 0.8,
the suggestion naming that persona with its confidence and a transition
message.  Concretely, `suggest_handoff("susan", "let's roleplay this", 1)`
is `none`, while turn count 5 with the same message yields a handoff to
`agnes` with confidence ≥ 0.8. -/
theorem C8_suggest_handoff_spec :
    (∀ (cur msg : String) (n : ℤ), n < 3 → suggest_handoff cur msg n = none) ∧
    (∀ (cur msg : String) (n : ℤ), 3 ≤ n →
      ((suggest_handoff cur msg n).isSome ↔
        ((route msg emptyContext).1 ≠ cur ∧ 0.8 ≤ (route msg emptyContext).2.2)) ∧
      (∀ s, suggest_handoff cur msg n = some s →
        s.suggested_ai = (route msg emptyContext).1 ∧
        s.confidence = (route msg emptyContext).2.2 ∧
        s.message = generate_handoff_message cur (route msg emptyContext).1)) ∧
    suggest_handoff "susan" "let\x27s roleplay this" 1 = none ∧
    (∃ s, suggest_handoff "susan" "let\x27s roleplay this" 5 = some s ∧
      s.suggested_ai = "agnes" ∧ 0.8 ≤ s.confidence) := by
  refine ⟨?_, ?_, by with_unfolding_all rfl, ?_⟩
  · intro cur msg n hn
    unfold suggest_handoff
    rw [if_pos hn]
  · intro cur msg n hn
    unfold suggest_handoff
    rw [if_neg (not_lt.mpr hn)]
    by_cases hcond : (route msg emptyContext).1 ≠ cur ∧ (0.8 : ℚ) ≤ (route msg emptyContext).2.2
    · rw [if_pos hcond]
      exact ⟨by simpa using hcond, fun s hs => by cases hs; exact ⟨rfl, rfl, rfl⟩⟩
    · rw [if_neg hcond]
      exact ⟨by simpa using hcond, fun s hs => by cases hs⟩
  · refine ⟨⟨"agnes", Reason.trainingIntent 1.5, 15/16,
      generate_handoff_message "susan" "agnes"⟩, ?_, rfl, by norm_num⟩
    with_unfolding_all rfl

/-- The decision rule of `suggest_handoff` as a function of the current
persona, the turn count, and a `route` result alone. -/
def handoffDecision (current_ai : String) (n : ℤ)
    (r : String × Reason × ℚ) : Option HandoffSuggestion :=
  if n < 3 then none
  else if r.1 ≠ current_ai ∧ 0.8 ≤ r.2.2 then
    some ⟨r.1, r.2.1, r.2.2, generate_handoff_message current_ai r.1⟩
  else none

/-- C10: `suggest_handoff` always re-runs `route` with the empty context
(line 205 passes no context), so its output is fully determined by
`(currentPersona, message, turnCount)` through `route msg emptyContext` —
while context genuinely can change `route`'s answer (second conjunct), it
can never influence a handoff suggestion. -/
theorem C10_suggest_handoff_context_free :
    (∀ (cur msg : String) (n : ℤ),
      suggest_handoff cur msg n = handoffDecision cur n (route msg emptyContext)) ∧
    (∃ (msg : String) (ctx : RoutingContext), route msg ctx ≠ route msg emptyContext) := by
  constructor
  · intro cur msg n
    unfold suggest_handoff handoffDecision
    rfl
  · refine ⟨"", { active_training_scenario := true }, fun h => ?_⟩
    have h1 : route "" { active_training_scenario := true }
        = ("agnes", Reason.activeScenario, 1) := by with_unfolding_all rfl
    have h2 : route "" emptyContext = ("susan", Reason.defaultRoute, 0.5) := by
      with_unfolding_all rfl
    rw [h1, h2] at h
    exact absurd (congrArg Prod.fst h) (by decide)

/-- Witness for C1: with Groq failing and Together succeeding, `generate`
returns Together's result. -/
theorem C1_generate_first_success_wins_witness :
    (generate defaultProviders
        (fun n => if n = "groq" then CallResult.failure "rate limited"
                  else CallResult.success "hello" ⟨10, 20, 30⟩)
        "susan" none none initLedger).result
      = .ok ⟨"hello", "together", "Qwen/Qwen2.5-72B-Instruct-Turbo", ⟨10, 20, 30⟩,
          calculate_cost 30 0.0009⟩ := by
  have h := C1_generate_first_success_wins defaultProviders
    (fun n => if n = "groq" then CallResult.failure "rate limited"
              else CallResult.success "hello" ⟨10, 20, 30⟩)
    "susan" none none initLedger
    [⟨"groq", [("susan", "llama-3.3-70b-versatile"), ("agnes", "llama-3.3-70b-versatile")],
       0.00059, 1, 8192, true⟩]
    ⟨"together", [("susan", "Qwen/Qwen2.5-72B-Instruct-Turbo"), ("agnes", "Qwen/Qwen2.5-72B-Instruct-Turbo")],
       0.0009, 2, 8192, true⟩
    [⟨"openrouter", [("susan", "auto"), ("agnes", "auto")], 0.001, 3, 4096, true⟩]
    "Qwen/Qwen2.5-72B-Instruct-Turbo" "hello" ⟨10, 20, 30⟩
    (by with_unfolding_all rfl)
    (by intro q hq mq hmq
        rcases List.mem_singleton.mp hq with rfl
        with_unfolding_all rfl)
    (by with_unfolding_all rfl)
    (by with_unfolding_all rfl)
  exact h.1

/-- Witness for C2: all three default providers configured for `susan`
and all failing yields the three-entry exhaustion error in priority
order. -/
theorem C2_generate_exhausted_error_witness :
    (generate defaultProviders (fun _ => CallResult.failure "boom")
        "susan" none none initLedger).result
      = .error [("groq", "boom"), ("together", "boom"), ("openrouter", "boom")] := by
  have h := C2_generate_exhausted_error defaultProviders (fun _ => CallResult.failure "boom")
    "susan" none none initLedger (fun p hp mo hmo => rfl)
  exact h.1.trans (by with_unfolding_all rfl)

/-- Witness for C3 (amended): a successful result's cost uses the serving
provider's rate, and a coherent provider report stays coherent. -/
theorem C3_generate_cost_exact_usage_passthrough_witness :
    (∃ p, p ∈ defaultProviders ∧ ("groq" : String) = p.name ∧
       ((30 : ℚ) / 1000) * 0.00059 = ((30 : ℚ) / 1000) * p.cost_per_1k_tokens) ∧
    (10 : ℕ) + 20 = 30 := by
  constructor
  · obtain ⟨p, hp, hname, _, hcost⟩ :=
      C3_generate_cost_exact_usage_passthrough.1 defaultProviders
        (fun _ => CallResult.success "hello" ⟨10, 20, 30⟩) "susan" none none initLedger
        ⟨"hello", "groq", "llama-3.3-70b-versatile", ⟨10, 20, 30⟩, ((30 : ℚ) / 1000) * 0.00059⟩
        (by with_unfolding_all rfl)
    exact ⟨p, hp, hname, hcost⟩
  · have := C3_generate_cost_exact_usage_passthrough.2 defaultProviders
      (fun _ => CallResult.success "hello" ⟨10, 20, 30⟩) "susan" none none initLedger
      ⟨"hello", "groq", "llama-3.3-70b-versatile", ⟨10, 20, 30⟩, ((30 : ℚ) / 1000) * 0.00059⟩
      (fun n cnt u h => by cases h; rfl)
      (by with_unfolding_all rfl)
    exact this.symm

set_option maxHeartbeats 1000000 in
/-- Witness for C5 (amended): the single call issued with no overrides
goes to Groq with the default temperature and max-tokens within Groq's
ceiling. -/
theorem C5_generate_effective_params_witness :
    (0.7 : ℚ) = orDefaultQ none AI_TEMPERATURE ∧
    ∃ p, p ∈ defaultProviders ∧ ("groq" : String) = p.name ∧
      (2048 : ℕ) = min (orDefaultN none AI_MAX_TOKENS) p.max_tokens ∧
      (2048 : ℕ) ≤ p.max_tokens := by
  have hc : (generate defaultProviders (fun _ => CallResult.success "ok" ⟨1, 1, 2⟩)
      "susan" none none initLedger).calls
      = [⟨"groq", "llama-3.3-70b-versatile", 0.7, 2048⟩] := by
    with_unfolding_all rfl
  have h := C5_generate_effective_params defaultProviders
    (fun _ => CallResult.success "ok" ⟨1, 1, 2⟩) "susan" none none initLedger
    ⟨"groq", "llama-3.3-70b-versatile", 0.7, 2048⟩
    (by rw [hc]; exact List.mem_singleton_self _)
  exact h

/-- Witness for C6: the ledger invariant holds after a concrete call in
which every provider fails, starting from the initial state. -/
theorem C6_generate_ledger_accounting_witness :
    statsInvariant (generate defaultProviders (fun _ => CallResult.failure "boom")
        "susan" none none initLedger).state :=
  (C6_generate_ledger_accounting.2 defaultProviders (fun _ => CallResult.failure "boom")
      "susan" none none initLedger).2.2.2 (fun _ => rfl)

set_option maxHeartbeats 1000000 in
/-- Witness for C7 (amended): a message matching nothing ties at zero and
falls to the default persona at 0.5. -/
theorem C7_route_default_on_tie_witness :
    route "hello there" emptyContext = ("susan", Reason.defaultRoute, 0.5) := by
  have hs : strContains (strLower "hello there") "susan" = false := by
    with_unfolding_all rfl
  have ha : strContains (strLower "hello there") "agnes" = false := by
    with_unfolding_all rfl
  have hts : training_score (strLower "hello there") emptyContext = 0 := by
    with_unfolding_all rfl
  have hxs : technical_score (strLower "hello there") emptyContext = 0 := by
    with_unfolding_all rfl
  exact C7_route_default_on_tie.2.1 "hello there" emptyContext
    (hs.trans ha.symm) rfl (fun h => nomatch h) (fun h => nomatch h)
    (hts.trans hxs.symm)

/-- Witness for C8: below the 3-turn floor no handoff is suggested. -/
theorem C8_suggest_handoff_spec_witness :
    suggest_handoff "agnes" "hi" 0 = none :=
  C8_suggest_handoff_spec.1 "agnes" "hi" 0 (by decide)

/-- Witness for C9: the persona `bob` is configured on no provider, so
`generate` raises with an empty attempt list and changes nothing. -/
theorem C9_generate_unconfigured_noop_witness :
    generate defaultProviders (fun _ => CallResult.failure "boom") "bob" none none initLedger
      = ⟨.error [], initLedger, []⟩ := by
  refine C9_generate_unconfigured_noop defaultProviders _ "bob" none none initLedger ?_
  intro p hp
  simp only [defaultProviders, List.mem_cons, List.not_mem_nil, or_false] at hp
  rcases hp with rfl | rfl | rfl <;> with_unfolding_all rfl
